import Mathlib

/-!
Verification development for the Oasis residential-facility manager.

The definitions below are a shallow embedding of the server's in-memory
storage layer (`MemStorage` in the server storage module) together with the
REST routes that drive it.  JavaScript `Map<number, V>` objects are embedded
as association lists in insertion order (`Map.get` returns the first match,
`Map.set` replaces in place or appends, `Map.delete` removes the entry), and
`Partial<Insert*>` patch objects are embedded as records of `Option` fields
(`none` = field absent from the PATCH body).  Nullable columns are `Option`
values; a patch field for a nullable column is therefore `Option (Option _)`.
Numeric ids are `Nat`; JavaScript truthiness tests on ids (`if (x.bedId)`)
are embedded by `jsTruthyId`, which is false for `null`/`undefined` and for `0`.

The storage methods are all `async`, and the constructor's `initSampleData`
calls them **without `await`**, so each `const x = this.create...(...)`
binds a pending Promise and every `x.id` read below it yields `undefined`
at runtime.  Foreign-key fields (`rooms.houseId`, `beds.roomId`,
`residents.bedId`, `payments.residentId`, maintenance `roomId` /
`requestedBy`, inventory `houseId`) are therefore embedded as `Option Nat`,
with `none` standing for the runtime `undefined` (or `null`), even where the
TypeScript annotation claims `number`: the un-awaited constructor really
stores `undefined` there.  Within each method body no `await` occurs, so a
method's effects land synchronously and calls compose sequentially.
-/

set_option autoImplicit false

/-- Calendar date standing in for a JavaScript `Date` value (the source only
ever builds dates with `new Date(year, month, day)`). -/
structure JsDate where
  year : Nat
  month : Nat
  day : Nat
deriving DecidableEq, Repr

/-- `Map.get`: first entry with the given key, in insertion order. -/
def mapGet {α : Type} : List (Nat × α) → Nat → Option α
  | [], _ => none
  | (k', v) :: rest, k => if k' = k then some v else mapGet rest k

/-- `Map.set`: replace the value in place if the key is present, else append. -/
def mapSet {α : Type} : List (Nat × α) → Nat → α → List (Nat × α)
  | [], k, v => [(k, v)]
  | (k', v') :: rest, k, v =>
      if k' = k then (k, v) :: rest else (k', v') :: mapSet rest k v

/-- `Map.delete`: drop the entry with the given key. -/
def mapDelete {α : Type} : List (Nat × α) → Nat → List (Nat × α)
  | [], _ => []
  | (k', v) :: rest, k =>
      if k' = k then mapDelete rest k else (k', v) :: mapDelete rest k

/-- `Map.has` / the boolean result of `Map.delete`. -/
def mapContains {α : Type} (m : List (Nat × α)) (k : Nat) : Bool :=
  m.any (fun e => e.1 == k)

/-- `Map.get` called with a possibly-`undefined` key (`Map.get(undefined)`
finds nothing, since no stored key is `undefined`). -/
def mapGetU {α : Type} (m : List (Nat × α)) : Option Nat → Option α
  | none => none
  | some k => mapGet m k

/-- JavaScript truthiness of a `number | null | undefined` id: `null`,
`undefined` and `0` are falsy. -/
def jsTruthyId : Option Nat → Bool
  | none => false
  | some n => n != 0

/-! ## Entity records (shared/schema.ts select types) -/

structure House where
  id : Nat
  name : String
  address : String
  description : Option String
deriving DecidableEq, Repr

structure Room where
  id : Nat
  houseId : Option Nat
  name : String
  floor : Nat
deriving DecidableEq, Repr

structure Bed where
  id : Nat
  roomId : Option Nat
  name : String
  status : String
  notes : Option String
deriving DecidableEq, Repr

structure Resident where
  id : Nat
  firstName : String
  lastName : String
  email : Option String
  phone : Option String
  emergencyContact : Option String
  paymentStatus : String
  moveInDate : Option JsDate
  expectedDuration : Option String
  notes : Option String
  photoUrl : Option String
  bedId : Option Nat
deriving DecidableEq, Repr

structure InventoryItem where
  id : Nat
  name : String
  category : String
  currentQuantity : Int
  minimumQuantity : Int
  amazonUrl : Option String
  notes : Option String
  houseId : Option Nat
deriving DecidableEq, Repr

structure Payment where
  id : Nat
  residentId : Option Nat
  amount : Int
  datePaid : JsDate
  paymentMethod : String
  notes : Option String
  invoiceId : Option String
deriving DecidableEq, Repr

structure Message where
  id : Nat
  subject : String
  content : String
  sentAt : JsDate
  sender : String
  recipientType : String
  recipientId : Option Nat
deriving DecidableEq, Repr

structure MaintenanceRequest where
  id : Nat
  roomId : Option Nat
  description : String
  requestedBy : Option Nat
  requestedAt : JsDate
  status : String
  priority : String
  notes : Option String
deriving DecidableEq, Repr

/-! ## Insert types (entity minus `id`), as the routes hand them to the store -/

structure InsertHouse where
  name : String
  address : String
  description : Option String := none
deriving DecidableEq, Repr

structure InsertRoom where
  houseId : Option Nat
  name : String
  floor : Nat := 1
deriving DecidableEq, Repr

structure InsertBed where
  roomId : Option Nat
  name : String
  status : String := "available"
  notes : Option String := none
deriving DecidableEq, Repr

structure InsertResident where
  firstName : String
  lastName : String
  email : Option String := none
  phone : Option String := none
  emergencyContact : Option String := none
  paymentStatus : String := "unpaid"
  moveInDate : Option JsDate := none
  expectedDuration : Option String := none
  notes : Option String := none
  photoUrl : Option String := none
  bedId : Option Nat := none
deriving DecidableEq, Repr

structure InsertInventoryItem where
  name : String
  category : String
  currentQuantity : Int := 0
  minimumQuantity : Int := 5
  amazonUrl : Option String := none
  notes : Option String := none
  houseId : Option Nat
deriving DecidableEq, Repr

structure InsertPayment where
  residentId : Option Nat
  amount : Int
  datePaid : JsDate
  paymentMethod : String
  notes : Option String := none
  invoiceId : Option String := none
deriving DecidableEq, Repr

structure InsertMaintenanceRequest where
  roomId : Option Nat
  description : String
  requestedBy : Option Nat := none
  requestedAt : JsDate
  status : String := "pending"
  priority : String := "medium"
  notes : Option String := none
deriving DecidableEq, Repr

/-! ## Partial patch types (`Partial<Insert*>` as sent to PATCH routes) -/

structure BedPatch where
  roomId : Option (Option Nat) := none
  name : Option String := none
  status : Option String := none
  notes : Option (Option String) := none
deriving DecidableEq, Repr

structure ResidentPatch where
  firstName : Option String := none
  lastName : Option String := none
  email : Option (Option String) := none
  phone : Option (Option String) := none
  emergencyContact : Option (Option String) := none
  paymentStatus : Option String := none
  moveInDate : Option (Option JsDate) := none
  expectedDuration : Option (Option String) := none
  notes : Option (Option String) := none
  photoUrl : Option (Option String) := none
  bedId : Option (Option Nat) := none
deriving DecidableEq, Repr

/-- JS object spread `{ ...existingBed, ...bed }` for a bed patch. -/
def mergeBed (e : Bed) (p : BedPatch) : Bed :=
  { e with
    roomId := p.roomId.getD e.roomId
    name := p.name.getD e.name
    status := p.status.getD e.status
    notes := p.notes.getD e.notes }

/-- JS object spread `{ ...existingResident, ...resident }` for a resident patch. -/
def mergeResident (e : Resident) (p : ResidentPatch) : Resident :=
  { e with
    firstName := p.firstName.getD e.firstName
    lastName := p.lastName.getD e.lastName
    email := p.email.getD e.email
    phone := p.phone.getD e.phone
    emergencyContact := p.emergencyContact.getD e.emergencyContact
    paymentStatus := p.paymentStatus.getD e.paymentStatus
    moveInDate := p.moveInDate.getD e.moveInDate
    expectedDuration := p.expectedDuration.getD e.expectedDuration
    notes := p.notes.getD e.notes
    photoUrl := p.photoUrl.getD e.photoUrl
    bedId := p.bedId.getD e.bedId }

/-- `{ ...resident, id }` in `createResident`. -/
def residentOfInsert (id : Nat) (r : InsertResident) : Resident :=
  { id := id, firstName := r.firstName, lastName := r.lastName, email := r.email,
    phone := r.phone, emergencyContact := r.emergencyContact,
    paymentStatus := r.paymentStatus, moveInDate := r.moveInDate,
    expectedDuration := r.expectedDuration, notes := r.notes,
    photoUrl := r.photoUrl, bedId := r.bedId }

/-- `{ ...payment, id }` in `createPayment`. -/
def paymentOfInsert (id : Nat) (p : InsertPayment) : Payment :=
  { id := id, residentId := p.residentId, amount := p.amount,
    datePaid := p.datePaid, paymentMethod := p.paymentMethod,
    notes := p.notes, invoiceId := p.invoiceId }

/-! ## The MemStorage state: one Map and one id counter per entity -/

structure State where
  houses : List (Nat × House)
  rooms : List (Nat × Room)
  beds : List (Nat × Bed)
  residents : List (Nat × Resident)
  inventoryItems : List (Nat × InventoryItem)
  payments : List (Nat × Payment)
  messages : List (Nat × Message)
  maintenanceRequests : List (Nat × MaintenanceRequest)
  houseId : Nat
  roomId : Nat
  bedId : Nat
  residentId : Nat
  inventoryItemId : Nat
  paymentId : Nat
  messageId : Nat
  maintenanceRequestId : Nat
deriving DecidableEq, Repr

/-- The `MemStorage` constructor before `initSampleData` runs: empty maps,
all id counters at 1. -/
def emptyState : State :=
  { houses := [], rooms := [], beds := [], residents := [],
    inventoryItems := [], payments := [], messages := [],
    maintenanceRequests := [],
    houseId := 1, roomId := 1, bedId := 1, residentId := 1,
    inventoryItemId := 1, paymentId := 1, messageId := 1,
    maintenanceRequestId := 1 }

/-! ## MemStorage operations.  Each method is a function from the pre-state
(and arguments) to the returned value paired with the post-state. -/

def MemStorage.createHouse (s : State) (house : InsertHouse) : House × State :=
  let id := s.houseId
  let newHouse : House :=
    { id := id, name := house.name, address := house.address,
      description := house.description }
  (newHouse, { s with houses := mapSet s.houses id newHouse, houseId := s.houseId + 1 })

def MemStorage.createRoom (s : State) (room : InsertRoom) : Room × State :=
  let id := s.roomId
  let newRoom : Room :=
    { id := id, houseId := room.houseId, name := room.name, floor := room.floor }
  (newRoom, { s with rooms := mapSet s.rooms id newRoom, roomId := s.roomId + 1 })

def MemStorage.createBed (s : State) (bed : InsertBed) : Bed × State :=
  let id := s.bedId
  let newBed : Bed :=
    { id := id, roomId := bed.roomId, name := bed.name, status := bed.status,
      notes := bed.notes }
  (newBed, { s with beds := mapSet s.beds id newBed, bedId := s.bedId + 1 })

def MemStorage.updateBed (s : State) (id : Nat) (bed : BedPatch) : Option Bed × State :=
  match mapGet s.beds id with
  | none => (none, s)
  | some existingBed =>
      let updatedBed := mergeBed existingBed bed
      (some updatedBed, { s with beds := mapSet s.beds id updatedBed })

def MemStorage.deleteBed (s : State) (id : Nat) : Bool × State :=
  (mapContains s.beds id, { s with beds := mapDelete s.beds id })

def MemStorage.getResidentByBedId (s : State) (bedId : Nat) : Option Resident :=
  (s.residents.map Prod.snd).find? (fun r => decide (r.bedId = some bedId))

def MemStorage.createResident (s : State) (resident : InsertResident) : Resident × State :=
  let id := s.residentId
  let newResident := residentOfInsert id resident
  let s1 : State :=
    { s with residents := mapSet s.residents id newResident,
             residentId := s.residentId + 1 }
  -- Update bed status if bed is assigned
  let s2 : State :=
    if jsTruthyId resident.bedId then
      match resident.bedId with
      | some bId =>
          match mapGet s1.beds bId with
          | some _bed => (MemStorage.updateBed s1 bId { status := some "occupied" }).2
          | none => s1
      | none => s1
    else s1
  (newResident, s2)

def MemStorage.updateResident (s : State) (id : Nat) (resident : ResidentPatch) :
    Option Resident × State :=
  match mapGet s.residents id with
  | none => (none, s)
  | some existingResident =>
      -- Handle bed changes
      let s1 : State :=
        match resident.bedId with
        | none => s
        | some newBedId =>
            if newBedId = existingResident.bedId then s
            else
              -- If old bed exists, mark it as available
              let sA : State :=
                if jsTruthyId existingResident.bedId then
                  match existingResident.bedId with
                  | some oldId =>
                      match mapGet s.beds oldId with
                      | some _oldBed =>
                          (MemStorage.updateBed s oldId { status := some "available" }).2
                      | none => s
                  | none => s
                else s
              -- If new bed exists, mark it as occupied
              if jsTruthyId newBedId then
                match newBedId with
                | some nId =>
                    match mapGet sA.beds nId with
                    | some _newBed =>
                        (MemStorage.updateBed sA nId { status := some "occupied" }).2
                    | none => sA
                | none => sA
              else sA
      let updatedResident := mergeResident existingResident resident
      (some updatedResident,
       { s1 with residents := mapSet s1.residents id updatedResident })

def MemStorage.deleteResident (s : State) (id : Nat) : Bool × State :=
  let s1 : State :=
    match mapGet s.residents id with
    | some resident =>
        if jsTruthyId resident.bedId then
          match resident.bedId with
          | some bId =>
              match mapGet s.beds bId with
              | some _bed => (MemStorage.updateBed s bId { status := some "available" }).2
              | none => s
          | none => s
        else s
    | none => s
  (mapContains s1.residents id, { s1 with residents := mapDelete s1.residents id })

def MemStorage.createInventoryItem (s : State) (item : InsertInventoryItem) :
    InventoryItem × State :=
  let id := s.inventoryItemId
  let newItem : InventoryItem :=
    { id := id, name := item.name, category := item.category,
      currentQuantity := item.currentQuantity,
      minimumQuantity := item.minimumQuantity, amazonUrl := item.amazonUrl,
      notes := item.notes, houseId := item.houseId }
  (newItem,
   { s with inventoryItems := mapSet s.inventoryItems id newItem,
            inventoryItemId := s.inventoryItemId + 1 })

def MemStorage.createPayment (s : State) (payment : InsertPayment) : Payment × State :=
  let id := s.paymentId
  let newPayment := paymentOfInsert id payment
  let s1 : State :=
    { s with payments := mapSet s.payments id newPayment,
             paymentId := s.paymentId + 1 }
  -- Update resident payment status
  -- (`residents.get(payment.residentId)`: nothing is found when the id is
  -- the runtime `undefined`)
  let s2 : State :=
    match payment.residentId with
    | none => s1
    | some rid =>
        match mapGet s1.residents rid with
        | some _resident =>
            (MemStorage.updateResident s1 rid { paymentStatus := some "paid" }).2
        | none => s1
  (newPayment, s2)

def MemStorage.createMaintenanceRequest (s : State) (request : InsertMaintenanceRequest) :
    MaintenanceRequest × State :=
  let id := s.maintenanceRequestId
  let newRequest : MaintenanceRequest :=
    { id := id, roomId := request.roomId, description := request.description,
      requestedBy := request.requestedBy, requestedAt := request.requestedAt,
      status := request.status, priority := request.priority,
      notes := request.notes }
  (newRequest,
   { s with maintenanceRequests := mapSet s.maintenanceRequests id newRequest,
            maintenanceRequestId := s.maintenanceRequestId + 1 })

/-- The state built by the `MemStorage` constructor: `initSampleData` run on
the empty store, creation for creation in source order.  `initSampleData` never
awaits the `async` create methods, so `house1`, `room1`, `bed3`, `resident1`,
... are pending Promises and every `.id` read off them is `undefined` at
runtime; each such read is embedded as `none` below.  In particular no sample
resident references a bed, and the sample payments carry an `undefined`
`residentId`, so no resident's payment status is flipped by them. -/
def MemStorage.initSampleData : State :=
  -- Create Houses (the bound results are Promises; only `.id`, i.e.
  -- `undefined`, is ever read off them)
  let (_house1, s) := MemStorage.createHouse emptyState
    { name := "Serenity House", address := "123 Main St",
      description := some "Main recovery house" }
  let (_house2, s) := MemStorage.createHouse s
    { name := "Recovery Haven", address := "456 Oak Ave",
      description := some "Secondary recovery house" }
  -- Create Rooms for Serenity House (`houseId: house1.id` = `undefined`)
  let (_room1, s) := MemStorage.createRoom s { houseId := none, name := "Room 1", floor := 1 }
  let (_room2, s) := MemStorage.createRoom s { houseId := none, name := "Room 2", floor := 1 }
  let (_room3, s) := MemStorage.createRoom s { houseId := none, name := "Room 3", floor := 1 }
  let (_room4, s) := MemStorage.createRoom s { houseId := none, name := "Room 4", floor := 2 }
  let (_room5, s) := MemStorage.createRoom s { houseId := none, name := "Room 5", floor := 2 }
  let (_room6, s) := MemStorage.createRoom s { houseId := none, name := "Room 6", floor := 2 }
  -- Create Beds for each room (`roomId: roomN.id` = `undefined`)
  let (_bed1, s) := MemStorage.createBed s { roomId := none, name := "Bed 1", status := "available" }
  let (_bed2, s) := MemStorage.createBed s { roomId := none, name := "Bed 2", status := "occupied" }
  let (_bed3, s) := MemStorage.createBed s { roomId := none, name := "Bed 3", status := "occupied" }
  let (_bed4, s) := MemStorage.createBed s
    { roomId := none, name := "Bed 4", status := "maintenance", notes := some "Frame needs repair" }
  let (_bed5, s) := MemStorage.createBed s { roomId := none, name := "Bed 5", status := "occupied" }
  let (_bed6, s) := MemStorage.createBed s { roomId := none, name := "Bed 6", status := "available" }
  let (_bed7, s) := MemStorage.createBed s { roomId := none, name := "Bed 7", status := "available" }
  let (_bed8, s) := MemStorage.createBed s { roomId := none, name := "Bed 8", status := "occupied" }
  let (_bed9, s) := MemStorage.createBed s { roomId := none, name := "Bed 9", status := "occupied" }
  let (_bed10, s) := MemStorage.createBed s { roomId := none, name := "Bed 10", status := "available" }
  let (_bed11, s) := MemStorage.createBed s { roomId := none, name := "Bed 11", status := "occupied" }
  let (_bed12, s) := MemStorage.createBed s { roomId := none, name := "Bed 12", status := "available" }
  let (_bed13, s) := MemStorage.createBed s
    { roomId := none, name := "Bed 13", status := "maintenance", notes := some "Mattress replacement needed" }
  let (_bed14, s) := MemStorage.createBed s { roomId := none, name := "Bed 14", status := "occupied" }
  -- Create Residents (`bedId: bedN.id` = `undefined`, so `createResident`'s
  -- `if (resident.bedId)` is falsy and no bed status is touched)
  let (_resident1, s) := MemStorage.createResident s
    { firstName := "Michael", lastName := "Johnson",
      email := some "michael.j@example.com", phone := some "555-123-4567",
      emergencyContact := some "Jane Johnson, 555-987-6543",
      paymentStatus := "paid", moveInDate := some { year := 2023, month := 5, day := 15 },
      expectedDuration := some "3 months", bedId := none }
  let (_resident2, s) := MemStorage.createResident s
    { firstName := "Sarah", lastName := "Thompson",
      email := some "sarah.t@example.com", phone := some "555-222-3333",
      emergencyContact := some "Mark Thompson, 555-444-5555",
      paymentStatus := "partial", moveInDate := some { year := 2023, month := 3, day := 22 },
      expectedDuration := some "6 months", bedId := none }
  let (_resident3, s) := MemStorage.createResident s
    { firstName := "Robert", lastName := "Davis",
      email := some "robert.d@example.com", phone := some "555-666-7777",
      emergencyContact := some "Lisa Davis, 555-888-9999",
      paymentStatus := "overdue", moveInDate := some { year := 2023, month := 6, day := 3 },
      expectedDuration := some "3 months", bedId := none }
  let (_resident4, s) := MemStorage.createResident s
    { firstName := "Jennifer", lastName := "Martinez",
      email := some "jennifer.m@example.com", phone := some "555-333-2222",
      emergencyContact := some "Carlos Martinez, 555-111-0000",
      paymentStatus := "paid", moveInDate := some { year := 2023, month := 4, day := 19 },
      expectedDuration := some "9 months", bedId := none }
  -- Create Inventory Items (`houseId: house1.id` = `undefined`)
  let (_i1, s) := MemStorage.createInventoryItem s
    { name := "Toilet Paper", category := "Bathroom", currentQuantity := 12,
      minimumQuantity := 10, amazonUrl := some "https://www.amazon.com/dp/B07LCNXJMN",
      houseId := none }
  let (_i2, s) := MemStorage.createInventoryItem s
    { name := "Paper Towels", category := "Kitchen", currentQuantity := 4,
      minimumQuantity := 6, amazonUrl := some "https://www.amazon.com/dp/B07LCNXJMN",
      houseId := none }
  let (_i3, s) := MemStorage.createInventoryItem s
    { name := "Laundry Detergent", category := "Laundry", currentQuantity := 2,
      minimumQuantity := 3, amazonUrl := some "https://www.amazon.com/dp/B01DABQM0K",
      houseId := none }
  -- Create Payments (`residentId: residentN.id` = `undefined`, so the
  -- resident lookup inside `createPayment` finds nobody and no payment
  -- status is flipped)
  let (_p1, s) := MemStorage.createPayment s
    { residentId := none, amount := 45000,
      datePaid := { year := 2023, month := 7, day := 1 },
      paymentMethod := "Credit Card", invoiceId := some "INV-2023-001" }
  let (_p2, s) := MemStorage.createPayment s
    { residentId := none, amount := 30000,
      datePaid := { year := 2023, month := 7, day := 3 },
      paymentMethod := "Cash",
      notes := some "Partial payment, remainder due by 15th",
      invoiceId := some "INV-2023-002" }
  -- Create Maintenance Requests (`roomId`/`requestedBy` reads = `undefined`)
  let (_m1, s) := MemStorage.createMaintenanceRequest s
    { roomId := none, description := "Bathroom sink is leaking",
      requestedBy := none,
      requestedAt := { year := 2023, month := 7, day := 10 },
      priority := "medium", status := "pending" }
  let (_m2, s) := MemStorage.createMaintenanceRequest s
    { roomId := none, description := "Bed frame is broken",
      requestedAt := { year := 2023, month := 7, day := 8 },
      priority := "high", status := "in_progress",
      notes := some "Parts ordered, will repair by Friday" }
  s

/-- The store state of the exported `storage = new MemStorage()` singleton
right after construction. -/
def initState : State := MemStorage.initSampleData

/-! ## The REST surface the claims speak about -/

/-- `PATCH /api/residents/:id` with body `{ bedId }`: the "assign" call of the
spec, which the route forwards to `MemStorage.updateResident`. -/
def assign (s : State) (residentId bedId : Nat) : Option Resident × State :=
  MemStorage.updateResident s residentId { bedId := some (some bedId) }

/-- `PATCH /api/beds/:id` with body `{ status: "maintenance" }`: the "release to
maintenance" call of the spec, which the route forwards to `MemStorage.updateBed`. -/
def releaseToMaintenance (s : State) (bedId : Nat) : Option Bed × State :=
  MemStorage.updateBed s bedId { status := some "maintenance" }

/-- Status of the bed stored under key `b`, if any. -/
def bedStatusIn (s : State) (b : Nat) : Option String :=
  (mapGet s.beds b).map Bed.status

/-- The `bedId` field of the resident stored under key `r`, if any. -/
def residentBedIn (s : State) (r : Nat) : Option Nat :=
  (mapGet s.residents r).bind Resident.bedId

/-- Bed `b` is occupied by resident `r`: the bed's status is `occupied` and the
resident's `bedId` references it. -/
def occupiedBy (s : State) (b r : Nat) : Prop :=
  bedStatusIn s b = some "occupied" ∧ residentBedIn s r = some b

instance (s : State) (b r : Nat) : Decidable (occupiedBy s b r) := by
  unfold occupiedBy; infer_instance

/-- Number of residents whose `bedId` references bed id `b`. -/
def bedReferenceCount (s : State) (b : Nat) : Nat :=
  ((s.residents.map Prod.snd).filter (fun r => decide (r.bedId = some b))).length

/-- The one-to-one occupancy invariant of the claim: no two residents share a
non-null `bedId`; every `occupied` bed is referenced by exactly one resident;
every `available` or `maintenance` bed is referenced by none. -/
def occupancyInvariant (s : State) : Bool :=
  (s.residents.map Prod.snd).all (fun r =>
    match r.bedId with
    | none => true
    | some b => bedReferenceCount s b == 1) &&
  (s.beds.map Prod.snd).all (fun b =>
    if b.status = "occupied" then bedReferenceCount s b.id == 1
    else if b.status = "available" ∨ b.status = "maintenance" then
      bedReferenceCount s b.id == 0
    else true)

/-! ## Laws of the embedded `Map` operations -/

theorem mapGet_mapSet_self {α : Type} (m : List (Nat × α)) (k : Nat) (v : α) :
    mapGet (mapSet m k v) k = some v := by
  induction m with
  | nil => simp [mapGet, mapSet]
  | cons hd tl ih =>
      obtain ⟨k', v'⟩ := hd
      by_cases h : k' = k
      · subst h; simp [mapSet, mapGet]
      · simp [mapSet, mapGet, h, ih]

theorem mapGet_mapSet_ne {α : Type} (m : List (Nat × α)) (k k' : Nat) (v : α)
    (h : k' ≠ k) : mapGet (mapSet m k v) k' = mapGet m k' := by
  induction m with
  | nil => simp [mapGet, mapSet, h.symm]
  | cons hd tl ih =>
      obtain ⟨a, b⟩ := hd
      by_cases ha : a = k
      · subst ha
        simp [mapSet, mapGet, h.symm]
      · simp only [mapSet, if_neg ha, mapGet]
        by_cases ha' : a = k'
        · simp [ha']
        · simp [ha', ih]

theorem mapGet_mapDelete_self {α : Type} (m : List (Nat × α)) (k : Nat) :
    mapGet (mapDelete m k) k = none := by
  induction m with
  | nil => simp [mapGet, mapDelete]
  | cons hd tl ih =>
      obtain ⟨a, b⟩ := hd
      by_cases ha : a = k
      · subst ha; simpa [mapDelete] using ih
      · simp [mapDelete, ha, mapGet, ih]

/-! ## Characterization of `updateResident` on a bed-to-bed transfer -/

/-- When the resident exists and holds bed `b1`, both beds exist, the target
differs from the held bed and both ids are nonzero (all store-allocated ids
are), `updateResident` with a `bedId` patch releases `b1`, occupies `b2` and
re-points the resident, all in its single returned post-state. -/
theorem updateResident_transfer_eq (s : State) (r b1 b2 : Nat)
    (res : Resident) (bed1 bed2 : Bed)
    (hres : mapGet s.residents r = some res)
    (hbed : res.bedId = some b1)
    (hb1 : mapGet s.beds b1 = some bed1)
    (hb2 : mapGet s.beds b2 = some bed2)
    (hne : b1 ≠ b2) (h01 : b1 ≠ 0) (h02 : b2 ≠ 0) :
    MemStorage.updateResident s r { bedId := some (some b2) } =
      (some (mergeResident res { bedId := some (some b2) }),
       { s with
          beds := mapSet (mapSet s.beds b1 (mergeBed bed1 { status := some "available" }))
                    b2 (mergeBed bed2 { status := some "occupied" }),
          residents := mapSet s.residents r (mergeResident res { bedId := some (some b2) }) }) := by
  have hb2' : mapGet (mapSet s.beds b1 (mergeBed bed1 { status := some "available" })) b2
      = some bed2 := by
    rw [mapGet_mapSet_ne _ _ _ _ (Ne.symm hne)]; exact hb2
  simp only [MemStorage.updateResident, hres, hbed, MemStorage.updateBed, hb1, hb2, hb2',
    jsTruthyId, Option.some.injEq, Ne.symm hne, if_neg, h01, h02, bne_iff_ne, ne_eq,
    not_false_eq_true, if_true, if_false]

/-! ## Witness fixtures (concrete data used to instantiate the general theorems) -/

/-- The record stored for resident 3 in `initState` (payment status
`overdue`; like every sample resident it references no bed, its insert's
`bedId` having been the runtime `undefined`). -/
def sampleResident3 : Resident :=
  { id := 3, firstName := "Robert", lastName := "Davis",
    email := some "robert.d@example.com", phone := some "555-666-7777",
    emergencyContact := some "Lisa Davis, 555-888-9999",
    paymentStatus := "overdue", moveInDate := some { year := 2023, month := 6, day := 3 },
    expectedDuration := some "3 months", notes := none, photoUrl := none,
    bedId := none }

/-- A hand-built resident holding bed 1. -/
def demoResident : Resident :=
  { id := 1, firstName := "Ada", lastName := "Lee",
    email := none, phone := none, emergencyContact := none,
    paymentStatus := "unpaid", moveInDate := none,
    expectedDuration := none, notes := none, photoUrl := none,
    bedId := some 1 }

/-- A two-bed, one-resident store used to instantiate the general theorems:
`demoResident` holds occupied bed 1, bed 2 is available. -/
def transferDemoState : State :=
  { emptyState with
    beds := [(1, { id := 1, roomId := some 1, name := "B1", status := "occupied", notes := none }),
             (2, { id := 2, roomId := some 1, name := "B2", status := "available", notes := none })],
    residents := [(1, demoResident)],
    bedId := 3, residentId := 2 }

/-- A concrete payment for an existing resident (resident 3, previously
`overdue`) with an arbitrary small amount. -/
def demoPayment : InsertPayment :=
  { residentId := some 3, amount := 1,
    datePaid := { year := 2024, month := 0, day := 1 }, paymentMethod := "Cash" }

/-- A concrete payment whose `residentId` (77) references no resident. -/
def demoPaymentNoResident : InsertPayment :=
  { residentId := some 77, amount := 1,
    datePaid := { year := 2024, month := 0, day := 1 }, paymentMethod := "Cash" }

/-! ## Claim theorems -/

/-- C1: the one-to-one occupancy invariant already fails in the initial
sample-data state: bed 5 is stored with status `occupied`, yet no resident's
`bedId` references it (the store's own `getResidentByBedId` finds nobody), so
the invariant does not hold in every reachable state. -/
theorem c1_initial_sample_data_violates_occupancy_invariant :
    occupancyInvariant initState = false ∧
    bedStatusIn initState 5 = some "occupied" ∧
    MemStorage.getResidentByBedId initState 5 = none := by decide

/-- C2: occupancy is reachable at runtime only through the PATCH path (the
broken sample data wires no resident to a bed), so first resident 2 is
assigned to available bed 6; in the resulting state bed 6 is occupied by
resident 2, yet the assign of resident 1 to bed 6 is not rejected: it returns
an updated resident (HTTP 200 at the route), re-points resident 1 to bed 6
while resident 2 still references it, and changes the store state. -/
theorem c2_assign_to_occupied_bed_succeeds_and_mutates :
    bedStatusIn (assign initState 2 6).2 6 = some "occupied" ∧
    residentBedIn (assign initState 2 6).2 2 = some 6 ∧
    ((assign (assign initState 2 6).2 1 6).1).isSome = true ∧
    residentBedIn (assign (assign initState 2 6).2 1 6).2 1 = some 6 ∧
    residentBedIn (assign (assign initState 2 6).2 1 6).2 2 = some 6 ∧
    (assign (assign initState 2 6).2 1 6).2 ≠ (assign initState 2 6).2 := by decide

/-- C3: bed 4 has status `maintenance` in the initial state, yet the assign of
resident 1 to bed 4 succeeds and moves the bed directly from `maintenance` to
`occupied`, with no `BedUnavailable` rejection. -/
theorem c3_assign_to_maintenance_bed_succeeds :
    bedStatusIn initState 4 = some "maintenance" ∧
    ((assign initState 1 4).1).isSome = true ∧
    bedStatusIn (assign initState 1 4).2 4 = some "occupied" := by decide

/-- C4: transferring resident `r` from an occupied bed `b1` to an existing
available bed `b2` (both store-allocated, hence nonzero, ids) yields a
post-state in which `b1` is `available`, `b2` is `occupied`, the resident
references `b2`, and exactly one of the two beds is occupied by `r`. -/
theorem c4_transfer_updates_both_beds_atomically (s : State) (r b1 b2 : Nat)
    (res : Resident)
    (hres : mapGet s.residents r = some res)
    (hbed : res.bedId = some b1)
    (h1 : bedStatusIn s b1 = some "occupied")
    (h2 : bedStatusIn s b2 = some "available")
    (h01 : b1 ≠ 0) (h02 : b2 ≠ 0) :
    bedStatusIn (assign s r b2).2 b1 = some "available" ∧
    bedStatusIn (assign s r b2).2 b2 = some "occupied" ∧
    residentBedIn (assign s r b2).2 r = some b2 ∧
    occupiedBy (assign s r b2).2 b2 r ∧ ¬ occupiedBy (assign s r b2).2 b1 r := by
  obtain ⟨bed1, hb1, hs1⟩ : ∃ bed1, mapGet s.beds b1 = some bed1 ∧ bed1.status = "occupied" := by
    unfold bedStatusIn at h1
    cases hb : mapGet s.beds b1 with
    | none => rw [hb] at h1; simp at h1
    | some bed => rw [hb] at h1; simp at h1; exact ⟨bed, rfl, h1⟩
  obtain ⟨bed2, hb2, hs2⟩ : ∃ bed2, mapGet s.beds b2 = some bed2 ∧ bed2.status = "available" := by
    unfold bedStatusIn at h2
    cases hb : mapGet s.beds b2 with
    | none => rw [hb] at h2; simp at h2
    | some bed => rw [hb] at h2; simp at h2; exact ⟨bed, rfl, h2⟩
  have hne : b1 ≠ b2 := by
    intro h; subst h
    rw [hb1] at hb2
    cases hb2
    rw [hs1] at hs2
    exact absurd hs2 (by decide)
  have hchar := updateResident_transfer_eq s r b1 b2 res bed1 bed2 hres hbed hb1 hb2 hne h01 h02
  unfold assign
  rw [hchar]
  have e1 : bedStatusIn
      ({ s with
          beds := mapSet (mapSet s.beds b1 (mergeBed bed1 { status := some "available" }))
                    b2 (mergeBed bed2 { status := some "occupied" }),
          residents := mapSet s.residents r (mergeResident res { bedId := some (some b2) }) } : State)
      b1 = some "available" := by
    unfold bedStatusIn
    rw [show ({ s with
          beds := mapSet (mapSet s.beds b1 (mergeBed bed1 { status := some "available" }))
                    b2 (mergeBed bed2 { status := some "occupied" }),
          residents := mapSet s.residents r (mergeResident res { bedId := some (some b2) }) } : State).beds
        = mapSet (mapSet s.beds b1 (mergeBed bed1 { status := some "available" }))
                    b2 (mergeBed bed2 { status := some "occupied" }) from rfl]
    rw [mapGet_mapSet_ne _ _ _ _ hne, mapGet_mapSet_self]
    simp [mergeBed]
  have e2 : bedStatusIn
      ({ s with
          beds := mapSet (mapSet s.beds b1 (mergeBed bed1 { status := some "available" }))
                    b2 (mergeBed bed2 { status := some "occupied" }),
          residents := mapSet s.residents r (mergeResident res { bedId := some (some b2) }) } : State)
      b2 = some "occupied" := by
    unfold bedStatusIn
    rw [show ({ s with
          beds := mapSet (mapSet s.beds b1 (mergeBed bed1 { status := some "available" }))
                    b2 (mergeBed bed2 { status := some "occupied" }),
          residents := mapSet s.residents r (mergeResident res { bedId := some (some b2) }) } : State).beds
        = mapSet (mapSet s.beds b1 (mergeBed bed1 { status := some "available" }))
                    b2 (mergeBed bed2 { status := some "occupied" }) from rfl]
    rw [mapGet_mapSet_self]
    simp [mergeBed]
  have e3 : residentBedIn
      ({ s with
          beds := mapSet (mapSet s.beds b1 (mergeBed bed1 { status := some "available" }))
                    b2 (mergeBed bed2 { status := some "occupied" }),
          residents := mapSet s.residents r (mergeResident res { bedId := some (some b2) }) } : State)
      r = some b2 := by
    unfold residentBedIn
    rw [show ({ s with
          beds := mapSet (mapSet s.beds b1 (mergeBed bed1 { status := some "available" }))
                    b2 (mergeBed bed2 { status := some "occupied" }),
          residents := mapSet s.residents r (mergeResident res { bedId := some (some b2) }) } : State).residents
        = mapSet s.residents r (mergeResident res { bedId := some (some b2) }) from rfl]
    rw [mapGet_mapSet_self]
    simp [mergeResident]
  refine ⟨e1, e2, e3, ⟨e2, e3⟩, ?_⟩
  intro hocc
  rw [occupiedBy] at hocc
  rw [e1] at hocc
  exact absurd hocc.1 (by decide)

/-- C4 witness: the transfer theorem instantiated on a concrete two-bed store
where resident 1 holds occupied bed 1 and bed 2 is available. -/
theorem c4_transfer_witness :
    bedStatusIn (assign transferDemoState 1 2).2 1 = some "available" ∧
    bedStatusIn (assign transferDemoState 1 2).2 2 = some "occupied" ∧
    residentBedIn (assign transferDemoState 1 2).2 1 = some 2 ∧
    occupiedBy (assign transferDemoState 1 2).2 2 1 ∧
    ¬ occupiedBy (assign transferDemoState 1 2).2 1 1 :=
  c4_transfer_updates_both_beds_atomically transferDemoState 1 1 2 demoResident
    (by decide) (by decide) (by decide) (by decide) (by decide) (by decide)

/-- C5: with occupancy first established through the PATCH path (resident 2
assigned to bed 6), releasing occupied bed 6 to `maintenance` through the beds
PATCH path sets the bed's status but does not clear the occupant: resident 2
still references bed 6 afterwards, the residents map is untouched, and the
returned value is only the updated bed, naming no displaced resident. -/
theorem c5_release_to_maintenance_keeps_occupant_reference :
    bedStatusIn (assign initState 2 6).2 6 = some "occupied" ∧
    residentBedIn (assign initState 2 6).2 2 = some 6 ∧
    bedStatusIn (releaseToMaintenance (assign initState 2 6).2 6).2 6 = some "maintenance" ∧
    residentBedIn (releaseToMaintenance (assign initState 2 6).2 6).2 2 = some 6 ∧
    (releaseToMaintenance (assign initState 2 6).2 6).2.residents =
      (assign initState 2 6).2.residents := by decide

/-- C6: assigning resident 1 to available bed 6 twice in a row leaves the
store unchanged after the second call, but the second call's return value is
the same plain updated-resident success as the first call's; the storage
return type (`Resident | undefined`) carries no distinct `NoChange` signal. -/
theorem c6_repeat_assign_returns_plain_success_state_unchanged :
    ((assign initState 1 6).1).isSome = true ∧
    (assign (assign initState 1 6).2 1 6).2 = (assign initState 1 6).2 ∧
    (assign (assign initState 1 6).2 1 6).1 = (assign initState 1 6).1 := by decide

/-- C7: assigning resident 1 to the nonexistent bed 99 is not rejected: the
call succeeds, records the dangling `bedId = 99` although no bed 99 exists,
and changes the store; only a nonexistent resident id (999) produces the
not-found outcome with no state change. -/
theorem c7_assign_nonexistent_bed_records_dangling_reference :
    mapGet initState.beds 99 = none ∧
    ((assign initState 1 99).1).isSome = true ∧
    residentBedIn (assign initState 1 99).2 1 = some 99 ∧
    (assign initState 1 99).2 ≠ initState ∧
    assign initState 999 1 = (none, initState) := by decide

/-- C8: two assign calls targeting the same available bed 6 (residents 1 and
2) both succeed in either serialization order, and the final state has both
residents referencing bed 6; no call ever loses with `BedOccupiedByOther`. -/
theorem c8_two_assigns_same_bed_both_succeed_in_either_order :
    (((assign initState 1 6).1).isSome = true ∧
     ((assign (assign initState 1 6).2 2 6).1).isSome = true ∧
     residentBedIn (assign (assign initState 1 6).2 2 6).2 1 = some 6 ∧
     residentBedIn (assign (assign initState 1 6).2 2 6).2 2 = some 6) ∧
    (((assign initState 2 6).1).isSome = true ∧
     ((assign (assign initState 2 6).2 1 6).1).isSome = true ∧
     residentBedIn (assign (assign initState 2 6).2 1 6).2 1 = some 6 ∧
     residentBedIn (assign (assign initState 2 6).2 1 6).2 2 = some 6) := by decide

/-- C9: deleting bed `b` removes it from the beds map and leaves the residents
map exactly as it was, so a resident referencing `b` keeps the now-dangling
`bedId` afterwards. -/
theorem c9_deleteBed_preserves_residents_dangling_reference (s : State) (b i : Nat)
    (r : Resident)
    (hr : mapGet s.residents i = some r) (hb : r.bedId = some b) :
    (MemStorage.deleteBed s b).2.residents = s.residents ∧
    mapGet (MemStorage.deleteBed s b).2.beds b = none ∧
    mapGet (MemStorage.deleteBed s b).2.residents i = some r ∧
    r.bedId = some b := by
  refine ⟨rfl, ?_, ?_, hb⟩
  · show mapGet (mapDelete s.beds b) b = none
    exact mapGet_mapDelete_self _ _
  · show mapGet s.residents i = some r
    exact hr

/-- C9 witness: deleting bed 1 from the two-bed demo store keeps resident 1's
record, `bedId = 1` included, while bed 1 is gone. -/
theorem c9_deleteBed_witness :
    (MemStorage.deleteBed transferDemoState 1).2.residents = transferDemoState.residents ∧
    mapGet (MemStorage.deleteBed transferDemoState 1).2.beds 1 = none ∧
    mapGet (MemStorage.deleteBed transferDemoState 1).2.residents 1 = some demoResident ∧
    demoResident.bedId = some 1 :=
  c9_deleteBed_preserves_residents_dangling_reference transferDemoState 1 1 demoResident
    (by decide) (by decide)

/-- C10: `createPayment` always stores the new payment under the next payment
id; when the payment's `residentId` references an existing resident that
resident's `paymentStatus` becomes `paid`, whatever the amount and previous
status; when it references nobody (a missing id, or the runtime `undefined`
the broken sample data passes), the residents map is untouched. -/
theorem c10_createPayment_marks_resident_paid (s : State) (p : InsertPayment) :
    (∀ rid r, p.residentId = some rid → mapGet s.residents rid = some r →
       (mapGet (MemStorage.createPayment s p).2.residents rid).map
         Resident.paymentStatus = some "paid") ∧
    (mapGetU s.residents p.residentId = none →
       (MemStorage.createPayment s p).2.residents = s.residents) ∧
    mapGet (MemStorage.createPayment s p).2.payments s.paymentId =
      some (paymentOfInsert s.paymentId p) := by
  cases hid : p.residentId with
  | none =>
      refine ⟨?_, ?_, ?_⟩
      · intro rid r hr; cases hr
      · intro _
        simp only [MemStorage.createPayment, hid]
      · simp only [MemStorage.createPayment, hid]
        exact mapGet_mapSet_self _ _ _
  | some rid0 =>
      cases hx : mapGet s.residents rid0 with
      | none =>
          refine ⟨?_, ?_, ?_⟩
          · intro rid r hrid hr
            cases hrid
            rw [hx] at hr; cases hr
          · intro _
            simp only [MemStorage.createPayment, hid, hx]
          · simp only [MemStorage.createPayment, hid, hx]
            exact mapGet_mapSet_self _ _ _
      | some r0 =>
          refine ⟨?_, ?_, ?_⟩
          · intro rid r hrid hr
            cases hrid
            rw [hx] at hr; cases hr
            simp only [MemStorage.createPayment, MemStorage.updateResident, hid, hx]
            rw [mapGet_mapSet_self]
            simp [mergeResident]
          · intro hnone
            simp only [mapGetU] at hnone
            rw [hx] at hnone; cases hnone
          · simp only [MemStorage.createPayment, MemStorage.updateResident, hid, hx]
            exact mapGet_mapSet_self _ _ _

/-- C10 witness: a 1-cent payment for resident 3 (previously `overdue`) flips
the stored status to `paid`, and a payment naming the nonexistent resident 77
leaves the residents map untouched. -/
theorem c10_createPayment_witness :
    (mapGet (MemStorage.createPayment initState demoPayment).2.residents 3).map
      Resident.paymentStatus = some "paid" ∧
    (MemStorage.createPayment initState demoPaymentNoResident).2.residents =
      initState.residents :=
  ⟨(c10_createPayment_marks_resident_paid initState demoPayment).1
      3 sampleResident3 (by decide) (by decide),
   (c10_createPayment_marks_resident_paid initState demoPaymentNoResident).2.1
      (by decide)⟩
